import Mathlib

/-!
Verification development for `wbclean.py`, a World Bank data pipeline.

The remote data source (`wb.download`, `wb.get_countries`) is an external
collaborator: its results are passed in as explicit lists of observations and
location metadata.  Every pandas transformation of `wbclean.py` is embedded as
an executable Lean function over those lists.
-/

namespace WBClean

/-- One observation returned by `wb.download`: the (country, year) index pair and
the indicator value column, which may be missing (NaN). -/
structure Obs where
  country : String
  year : Nat
  value : Option ℚ
deriving Repr, DecidableEq

/-- One row of `wb.get_countries()`: ISO2 short code, display name, region. -/
structure Country where
  iso2c : String
  name : String
  region : String
deriving Repr, DecidableEq

/-- One row of the year-indexed table produced by `get_wb_data`: the `Region`
column, the `Year` index value, and the (non-missing) indicator value. -/
structure YRow where
  region : String
  year : Nat
  value : ℚ
deriving Repr, DecidableEq

/-- A cell of a persisted delimited file: a string, a number, or blank (NaN). -/
inductive Cell where
  | str : String → Cell
  | num : ℚ → Cell
  | blank : Cell
deriving Repr, DecidableEq

/-- A persisted delimited file: target file name, header row, data rows. -/
structure CsvFile where
  fname : String
  header : List String
  rows : List (List Cell)
deriving Repr, DecidableEq

/-- Ordering of year-indexed rows by region name, lexicographically on the
region's character sequence (pandas `sort_values(by='Region')`). -/
def regionLe (a b : YRow) : Prop := a.region.data ≤ b.region.data

instance : DecidableRel regionLe :=
  fun a b => inferInstanceAs (Decidable (a.region.data ≤ b.region.data))

instance : IsTotal YRow regionLe := ⟨fun a b => le_total a.region.data b.region.data⟩

instance : IsTrans YRow regionLe := ⟨fun _ _ _ h h2 => le_trans h h2⟩

/-- Line 48 of `wbclean.py`: `temp_df.dropna()` — observations whose value is
missing are discarded; the survivors become (Region, Year, value) rows after the
index renaming on line 49. -/
def dropna (obs : List Obs) : List YRow :=
  obs.filterMap fun o => o.value.map fun v => YRow.mk o.country o.year v

/-- Line 50: `reset_index(level=0).sort_values(by='Region')` — `Region` becomes a
column and the rows are sorted by region name; `Year` stays as the index. -/
def sortValuesByRegion (rows : List YRow) : List YRow :=
  List.insertionSort regionLe rows

/-- `get_wb_data` (lines 35-53), as a function of the observation set returned by
`wb.download`.  Returns the year-indexed table together with the csv file written
on line 52 when `save_csv` is set.  That `to_csv` call passes `index=False`, so
the file holds only the `Region` column and the indicator value column; the
`Year` index is not written. -/
def get_wb_data (indicator : String) (obs : List Obs) (save_csv : Bool)
    (now : String) : List YRow × Option CsvFile :=
  let t := sortValuesByRegion (dropna obs)
  (t,
   if save_csv then
     some ⟨indicator ++ "_" ++ now ++ ".csv",
           ["Region", indicator],
           t.map fun r => [Cell.str r.region, Cell.num r.value]⟩
   else none)

/-- Whether an observation carries a non-missing value. -/
def hasValue (o : Obs) : Bool := o.value.isSome

/-- Index of the pivot table built on line 19 (`pd.pivot_table(values=indicator,
columns='year', index='country')`): the distinct countries carrying at least one
non-missing value, sorted ascending. -/
def pivotCountries (obs : List Obs) : List String :=
  List.insertionSort (fun a b : String => a.data ≤ b.data)
    ((obs.filter hasValue).map Obs.country).dedup

/-- Columns of the line-19 pivot table: the distinct years carrying at least one
non-missing value, sorted ascending. -/
def pivotYears (obs : List Obs) : List Nat :=
  List.insertionSort (fun a b : Nat => a ≤ b)
    ((obs.filter hasValue).map Obs.year).dedup

/-- The non-missing values observed for one (country, year) pivot cell. -/
def cellValues (obs : List Obs) (c : String) (y : Nat) : List ℚ :=
  obs.filterMap fun o => if o.country = c ∧ o.year = y then o.value else none

/-- Mean aggregation of a pivot cell (`pivot_table` default `aggfunc`); an empty
cell is NaN. -/
def cellMean (l : List ℚ) : Option ℚ :=
  if l.isEmpty then none else some (l.sum / l.length)

/-- Line 26: the icon-URL computed from a location's ISO2 short code. -/
def flagURL (iso2c : String) : String :=
  "https://www.countryflags.io/" ++ iso2c ++ "/flat/64.png"

/-- One row of the chart-race table after the merge, the `Image URL` insertion,
and the drop of the `iso2c` and `country` columns (lines 25-27): remaining
columns are `name`, `region`, `Image URL`, then one cell per pivot year. -/
structure FRow where
  name : String
  region : String
  image_url : String
  cells : List (Option ℚ)
deriving Repr, DecidableEq

/-- Lines 22-27 of `to_flourish`: metadata rows whose region is `"Aggregates"`
are removed (line 23), then `pd.merge(country_info[...], df, left_on='name',
right_on='country')` — an inner join (pandas default `how='inner'`), preserving
the left (metadata) row order and keeping only name/country matches.  Line 26
inserts the `Image URL` column; line 27 drops `iso2c` and `country`. -/
def to_flourish_rows (countries : List Country) (obs : List Obs) : List FRow :=
  (countries.filter fun c => c.region != "Aggregates").flatMap fun m =>
    ((pivotCountries obs).filter fun c => c == m.name).map fun _ =>
      FRow.mk m.name m.region (flagURL m.iso2c)
        ((pivotYears obs).map fun y => cellMean (cellValues obs m.name y))

/-- Render an optional pivot cell into a csv cell (NaN prints as blank). -/
def Cell.ofOpt : Option ℚ → Cell
  | some q => Cell.num q
  | none => Cell.blank

/-- `to_flourish` (lines 7-32), as a function of the downloaded observations and
the location metadata.  Returns the pivot year columns with the merged rows, and
the csv file written on line 30 when `save_csv` is set (`index=False`, so the
header is the column list `name`, `region`, `Image URL`, then the year
columns, which are strings in the downloaded index). -/
def to_flourish (indicator : String) (countries : List Country) (obs : List Obs)
    (save_csv : Bool) (now : String) :
    (List Nat × List FRow) × Option CsvFile :=
  let yrs := pivotYears obs
  let rows := to_flourish_rows countries obs
  ((yrs, rows),
   if save_csv then
     some ⟨"flourish_data/flourish_" ++ indicator ++ "_" ++ now ++ ".csv",
           ["name", "region", "Image URL"] ++ yrs.map toString,
           rows.map fun r =>
             [Cell.str r.name, Cell.str r.region, Cell.str r.image_url] ++
               r.cells.map Cell.ofOpt⟩
   else none)

/-- `df.index.max()` over the year-indexed table (line 106). -/
def maxYear (rows : List YRow) : Option Nat := (rows.map YRow.year).max?

/-- Line 104 of `plot_bar_chart`: the table fetched for the bar chart.  The
`download` parameter stands for `wb.download` with the indicator and country
selector fixed, taking the start and end of the requested year range; the
request passes the (possibly unresolved, `None`) `year` argument as both the
start and the end. -/
def plotBarFetched (download : Option Nat → Option Nat → List Obs)
    (indicator : String) (year : Option Nat) : List YRow :=
  (get_wb_data indicator (download year year) false "").1

/-- Lines 105-106: after the fetch, a missing `year` argument is resolved to the
maximum year present in the fetched table. -/
def plotBarYear (download : Option Nat → Option Nat → List Obs)
    (indicator : String) (year : Option Nat) : Option Nat :=
  match year with
  | none => maxYear (plotBarFetched download indicator year)
  | some y => some y

/-- Line 107: the fetched table filtered to the resolved year and re-sorted by
region. -/
def plot_bar_df (download : Option Nat → Option Nat → List Obs)
    (indicator : String) (year : Option Nat) : List YRow :=
  sortValuesByRegion ((plotBarFetched download indicator year).filter
    fun r => plotBarYear download indicator year == some r.year)

/-- Ordering of rows by indicator value, descending. -/
def valueGe (a b : YRow) : Prop := b.value ≤ a.value

instance : DecidableRel valueGe :=
  fun a b => inferInstanceAs (Decidable (b.value ≤ a.value))

instance : IsTotal YRow valueGe := ⟨fun a b => le_total b.value a.value⟩

instance : IsTrans YRow valueGe := ⟨fun _ _ _ h h2 => le_trans h2 h⟩

/-- Line 114: `df.sort_values(by=indicator, ascending=False)` — the row order
handed to the bar plot. -/
def barOrder (rows : List YRow) : List YRow := List.insertionSort valueGe rows

/-- A small concrete metadata table used to instantiate universally quantified
theorems. -/
def demoCountries : List Country := [Country.mk "US" "United States" "North America"]

/-- A small concrete observation set matching `demoCountries`. -/
def demoObs : List Obs := [Obs.mk "United States" 2000 (some 5)]

/-- The maximum of a list of naturals is invariant under permutation. -/
theorem maxNat_perm {l₁ l₂ : List Nat} (h : List.Perm l₁ l₂) : l₁.max? = l₂.max? := by
  cases hm : l₁.max? with
  | none =>
      have h1 : l₁ = [] := List.max?_eq_none_iff.mp hm
      subst h1
      rw [List.max?_eq_none_iff.mpr h.symm.eq_nil]
  | some a =>
      symm
      rw [List.max?_eq_some_iff (fun x : Nat => le_refl x) (fun x y : Nat => max_choice x y)
        (fun x y z : Nat => Nat.max_le)] at hm ⊢
      exact ⟨h.mem_iff.mp hm.1, fun b hb => hm.2 b (h.mem_iff.mpr hb)⟩

/-- C1: for every downloaded observation set, a year appears in the index of the
year-indexed table produced by `get_wb_data` if and only if some source
observation carries that year with a non-missing value: no extra and no missing
years. -/
theorem C1_year_index_exact (indicator : String) (obs : List Obs) (now : String)
    (y : Nat) :
    (y ∈ ((get_wb_data indicator obs false now).1).map YRow.year) ↔
      ∃ o ∈ obs, o.year = y ∧ o.value ≠ none := by
  have hp : ((get_wb_data indicator obs false now).1).Perm (dropna obs) :=
    List.perm_insertionSort regionLe (dropna obs)
  rw [List.Perm.mem_iff (hp.map YRow.year)]
  simp only [dropna, List.mem_map, List.mem_filterMap, Option.map_eq_some']
  constructor
  · rintro ⟨r, ⟨o, ho, v, hv, rfl⟩, hy⟩
    exact ⟨o, ho, hy, by simp [hv]⟩
  · rintro ⟨o, ho, hy, hv⟩
    obtain ⟨v, hv'⟩ := Option.ne_none_iff_exists'.mp hv
    exact ⟨YRow.mk o.country o.year v, ⟨o, ho, v, hv', rfl⟩, hy⟩

/-- C1 witness at a concrete input. -/
theorem C1_year_index_exact_witness :
    ((2000 ∈ ((get_wb_data "SP.POP.TOTL" demoObs false "t").1).map YRow.year) ↔
      ∃ o ∈ demoObs, o.year = 2000 ∧ o.value ≠ none) ∧
    (2000 ∈ ((get_wb_data "SP.POP.TOTL" demoObs false "t").1).map YRow.year) :=
  ⟨C1_year_index_exact "SP.POP.TOTL" demoObs "t" 2000, by decide⟩

/-- C2: no row produced by the Chart-Race Table Builder has region
`"Aggregates"`: line 23 removes the aggregate metadata rows before the merge,
and every merged row takes its region from the surviving metadata. -/
theorem C2_no_aggregates (countries : List Country) (obs : List Obs) (r : FRow)
    (h : r ∈ to_flourish_rows countries obs) : r.region ≠ "Aggregates" := by
  simp only [to_flourish_rows, List.mem_flatMap, List.mem_filter, List.mem_map] at h
  obtain ⟨m, ⟨_, hm⟩, _, _, rfl⟩ := h
  simpa using hm

/-- The single row the Chart-Race Table Builder produces from `demoCountries`
and `demoObs`. -/
def demoFRow : FRow :=
  FRow.mk "United States" "North America" (flagURL "US")
    ((pivotYears demoObs).map fun y => cellMean (cellValues demoObs "United States" y))

/-- `demoFRow` is indeed the output row at the demo input. -/
theorem demoFRow_mem : demoFRow ∈ to_flourish_rows demoCountries demoObs :=
  List.Mem.head _

/-- C2 witness: the theorem applied at a concrete metadata table and observation
set. -/
theorem C2_no_aggregates_witness :
    (demoFRow ∈ to_flourish_rows demoCountries demoObs) ∧
    demoFRow.region ≠ "Aggregates" :=
  ⟨demoFRow_mem, C2_no_aggregates demoCountries demoObs demoFRow demoFRow_mem⟩

/-- Metadata table for the C3 counterexample: one non-aggregate location whose
name is not "Atlantis". -/
def c3Countries : List Country := [Country.mk "US" "United States" "North America"]

/-- Observations for the C3 counterexample: one observation for "Atlantis",
which has no metadata match. -/
def c3Obs : List Obs := [Obs.mk "Atlantis" 2000 (some 1)]

/-- C3 counterexample: "Atlantis" is a row of the pivoted observation table and
no metadata row carries that display name, yet the Chart-Race output is empty —
the unmatched pivoted row is dropped by the line-25 merge (pandas default
`how='inner'`), not retained with blank metadata fields. -/
theorem C3_counterexample :
    pivotCountries c3Obs = ["Atlantis"] ∧
    (∀ m ∈ c3Countries, m.name ≠ "Atlantis") ∧
    to_flourish_rows c3Countries c3Obs = [] := by
  refine ⟨rfl, ?_, rfl⟩
  decide

/-- C3 amended: the line-25 merge is an inner join, so every output row is
matched on both sides — its name is the display name of a surviving
(non-aggregate) metadata row and also a row of the pivoted observation table;
unmatched pivoted rows are simply absent (no blank-field rows, no error). -/
theorem C3_inner_join (countries : List Country) (obs : List Obs) (r : FRow)
    (h : r ∈ to_flourish_rows countries obs) :
    (∃ m ∈ countries, m.region ≠ "Aggregates" ∧ m.name = r.name) ∧
      r.name ∈ pivotCountries obs := by
  simp only [to_flourish_rows, List.mem_flatMap, List.mem_filter, List.mem_map] at h
  obtain ⟨m, ⟨hmc, hmr⟩, c, ⟨hc, hcm⟩, rfl⟩ := h
  refine ⟨⟨m, hmc, by simpa using hmr, rfl⟩, ?_⟩
  simpa [show c = m.name from by simpa using hcm] using hc

/-- C3 witness: the inner-join theorem applied at the demo input. -/
theorem C3_inner_join_witness :
    ((∃ m ∈ demoCountries, m.region ≠ "Aggregates" ∧ m.name = demoFRow.name) ∧
      demoFRow.name ∈ pivotCountries demoObs) :=
  C3_inner_join demoCountries demoObs demoFRow demoFRow_mem

/-- Observation sets for the C4 counterexample: identical except for the year
values. -/
def c4Obs1 : List Obs := [Obs.mk "Albania" 2010 (some 3)]

/-- Same region and value as `c4Obs1` but a different year. -/
def c4Obs2 : List Obs := [Obs.mk "Albania" 1999 (some 3)]

/-- C4 counterexample: line 52 calls `to_csv` with `index=False`, so the `Year`
index is not written.  Two in-memory tables that differ only in their year
values persist to the identical file: the persisted file does not record `Year`
and does not preserve the year values of the in-memory table. -/
theorem C4_counterexample :
    (get_wb_data "IND" c4Obs1 true "01-01-2020 00-00").2 =
      (get_wb_data "IND" c4Obs2 true "01-01-2020 00-00").2 ∧
    (get_wb_data "IND" c4Obs1 true "01-01-2020 00-00").1 ≠
      (get_wb_data "IND" c4Obs2 true "01-01-2020 00-00").1 := by
  refine ⟨rfl, ?_⟩
  decide

/-- C4 amended: with the persist flag set, `get_wb_data` writes a file whose
header row is `[Region, <indicator_code>]` and whose data rows carry only the
region and the indicator value of each in-memory row; the `Year` index is
omitted (`index=False`), so year values are not preserved in the file. -/
theorem C4_persisted_file (indicator : String) (obs : List Obs) (now : String) :
    ((get_wb_data indicator obs true now).2).map CsvFile.header =
      some ["Region", indicator] ∧
    ((get_wb_data indicator obs true now).2).map CsvFile.rows =
      some (((get_wb_data indicator obs true now).1).map fun r =>
        [Cell.str r.region, Cell.num r.value]) :=
  ⟨rfl, rfl⟩

/-- Observations for the C5 counterexample: one location, one year. -/
def c5Obs : List Obs := [Obs.mk "United States" 2010 (some 5)]

/-- C5 counterexample: the persisted chart-race header at a concrete input is
`[name, region, Image URL, 2010]`, not `[Region, Image URL, 2010]`: line 27
drops `iso2c` and the duplicated `country` column but keeps the metadata
`name` column, so the claimed header shape is wrong. -/
theorem C5_counterexample :
    ((to_flourish "IND" demoCountries c5Obs true "t").2).map CsvFile.header =
      some ["name", "region", "Image URL", "2010"] ∧
    (["name", "region", "Image URL", "2010"] : List String) ≠
      ["Region", "Image URL", "2010"] := by
  refine ⟨rfl, ?_⟩
  decide

/-- C5 amended: with the persist flag set, the chart-race file's header row is
exactly `[name, region, Image URL]` followed by one column per year present in
the pivoted data (not per year of the requested range), and the file has one
data row per location that survived the metadata join. -/
theorem C5_flourish_file (indicator : String) (countries : List Country)
    (obs : List Obs) (now : String) :
    ((to_flourish indicator countries obs true now).2).map CsvFile.header =
      some (["name", "region", "Image URL"] ++ (pivotYears obs).map toString) ∧
    ((to_flourish indicator countries obs true now).2).map
        (fun f => f.rows.length) =
      some (to_flourish_rows countries obs).length := by
  refine ⟨rfl, ?_⟩
  simp [to_flourish]

/-- Sorting only permutes the year-indexed table, so its maximum year is the
maximum year among the non-missing observations it was built from. -/
theorem maxYear_fetched (indicator : String) (obs : List Obs) (now : String) :
    maxYear ((get_wb_data indicator obs false now).1) =
      ((obs.filterMap fun o => o.value.map fun _ => o.year)).max? := by
  have hp : ((get_wb_data indicator obs false now).1).Perm (dropna obs) :=
    List.perm_insertionSort regionLe (dropna obs)
  have h1 : maxYear ((get_wb_data indicator obs false now).1) =
      ((dropna obs).map YRow.year).max? := maxNat_perm (hp.map YRow.year)
  have hf : (fun x : Obs => Option.map YRow.year
        (Option.map (fun v => YRow.mk x.country x.year v) x.value)) =
      fun o : Obs => o.value.map fun _ => o.year := by
    funext o
    cases o.value <;> rfl
  rw [h1, dropna, List.map_filterMap, hf]

/-- C6: the bar-chart data request is issued with the unresolved `year`
argument as both the start and the end of the requested range (line 104); only
after that fetch is a missing year resolved (lines 105-106), to the maximum
year present in the fetched table, i.e. the maximum year among the request's
non-missing observations. -/
theorem C6_bar_year_resolution (download : Option Nat → Option Nat → List Obs)
    (indicator : String) (year : Option Nat) :
    plotBarFetched download indicator year =
      (get_wb_data indicator (download year year) false "").1 ∧
    (year = none → plotBarYear download indicator year =
      (((download year year).filterMap fun o =>
        o.value.map fun _ => o.year)).max?) := by
  refine ⟨rfl, fun h => ?_⟩
  subst h
  exact maxYear_fetched indicator (download none none) ""

/-- C6 witness: the theorem applied with a constant download oracle and a
missing year argument. -/
theorem C6_bar_year_resolution_witness :
    (plotBarFetched (fun _ _ => demoObs) "IND" none =
      (get_wb_data "IND" demoObs false "").1) ∧
    plotBarYear (fun _ _ => demoObs) "IND" none =
      ((demoObs.filterMap fun o => o.value.map fun _ => o.year)).max? :=
  ⟨(C6_bar_year_resolution (fun _ _ => demoObs) "IND" none).1,
   (C6_bar_year_resolution (fun _ _ => demoObs) "IND" none).2 rfl⟩

/-- Observations matching the C7 scenario: indicator "SP.POP.TOTL", years
2010-2012, locations ["USA", "CAN"], no missing values.  `wb.download` labels
rows with country display names, years descending within each country. -/
def popObs : List Obs :=
  [Obs.mk "Canada" 2012 (some 34714222), Obs.mk "Canada" 2011 (some 34339328),
   Obs.mk "Canada" 2010 (some 34004889),
   Obs.mk "United States" 2012 (some 313877662),
   Obs.mk "United States" 2011 (some 311583481),
   Obs.mk "United States" 2010 (some 309327143)]

/-- C7: the year-indexed table is always sorted ascending (alphabetically) by
the `Region` column, and on the "SP.POP.TOTL" 2010-2012 scenario for
["USA", "CAN"] it has exactly 6 rows with every "Canada" row preceding every
"United States" row. -/
theorem C7_sorted_by_region :
    (∀ (indicator : String) (obs : List Obs) (now : String),
      List.Sorted regionLe ((get_wb_data indicator obs false now).1)) ∧
    (get_wb_data "SP.POP.TOTL" popObs false "t").1 =
      [YRow.mk "Canada" 2012 34714222, YRow.mk "Canada" 2011 34339328,
       YRow.mk "Canada" 2010 34004889,
       YRow.mk "United States" 2012 313877662,
       YRow.mk "United States" 2011 311583481,
       YRow.mk "United States" 2010 309327143] := by
  refine ⟨fun indicator obs now => ?_, by decide⟩
  exact List.sorted_insertionSort regionLe (dropna obs)

/-- C8: the rows handed to the bar plot (line 114) are sorted by indicator
value in descending order; on a single-year table with three regions carrying
the values 5.1, 9.4 and 2.0, the bar order is the 9.4-region, then the
5.1-region, then the 2.0-region. -/
theorem C8_bar_descending :
    (∀ rows : List YRow, List.Sorted valueGe (barOrder rows)) ∧
    barOrder
        [YRow.mk "Aland" 2020 (mkRat 51 10), YRow.mk "Borduria" 2020 (mkRat 94 10),
         YRow.mk "Cascadia" 2020 2] =
      [YRow.mk "Borduria" 2020 (mkRat 94 10), YRow.mk "Aland" 2020 (mkRat 51 10),
       YRow.mk "Cascadia" 2020 2] :=
  ⟨fun rows => List.sorted_insertionSort valueGe rows, by decide⟩

/-- C9: with the persist flag false, the Year-Indexed Table Builder is a
deterministic function of the fetched observations: two calls whose downloads
returned the same observation set yield row-for-row identical tables, whatever
the timestamps of the two calls. -/
theorem C9_deterministic (indicator : String) (obs₁ obs₂ : List Obs)
    (now₁ now₂ : String) (h : obs₁ = obs₂) :
    (get_wb_data indicator obs₁ false now₁).1 =
      (get_wb_data indicator obs₂ false now₂).1 := by
  subst h
  rfl

/-- C9 witness: two calls at the demo observation set. -/
theorem C9_deterministic_witness :
    demoObs = demoObs ∧
    (get_wb_data "SP.POP.TOTL" demoObs false "a").1 =
      (get_wb_data "SP.POP.TOTL" demoObs false "b").1 :=
  ⟨rfl, C9_deterministic "SP.POP.TOTL" demoObs demoObs "a" "b" rfl⟩

/-- C10: the persist flag only controls whether a file is produced: for both
builders, the returned table is identical whether the flag is true or false. -/
theorem C10_persist_noninterference (indicator : String)
    (countries : List Country) (obs : List Obs) (now : String) (s₁ s₂ : Bool) :
    (get_wb_data indicator obs s₁ now).1 = (get_wb_data indicator obs s₂ now).1 ∧
    (to_flourish indicator countries obs s₁ now).1 =
      (to_flourish indicator countries obs s₂ now).1 :=
  ⟨rfl, rfl⟩

end WBClean
